import Mathlib

/-!
Verification development for the JSONValidator repository (src/server.py).

The Python source is shallowly embedded: Python strings become `List Char`,
the stdout parser of `validate_json` becomes pure Lean functions, and the
endpoint's control flow (temp-file creation, subprocess invocation with a
timeout, exception handling, finally-cleanup) becomes a pure function over
an explicit environment describing the outcome of each effect.
-/

namespace JSONValidator

/-! ### Python string primitives (modelled from the str methods used in server.py) -/

/-- Python whitespace characters stripped by str.strip (ASCII range; server.py
only ever strips ASCII output lines). -/
def isPySpace (c : Char) : Bool :=
  c = ' ' || c = '\t' || c = '\n' || c = '\r' || c = '\x0b' || c = '\x0c'

/-- Model of Python str.strip(). -/
def pyStrip (s : List Char) : List Char :=
  ((s.dropWhile isPySpace).reverse.dropWhile isPySpace).reverse

/-- Model of the Python substring test, pat in text. -/
def containsB (pat : List Char) : List Char → Bool
  | [] => pat.isEmpty
  | c :: t => pat.isPrefixOf (c :: t) || containsB pat t

/-- Index of the first occurrence of sep in text (Python str.find). -/
def firstOccur (sep : List Char) : List Char → Option Nat
  | [] => if sep.isEmpty then some 0 else none
  | c :: t => if sep.isPrefixOf (c :: t) then some 0 else (firstOccur sep t).map (· + 1)

/-- Fuel-indexed worker for `pySplit`. -/
def pySplitAux (sep : List Char) : Nat → List Char → List (List Char)
  | 0, text => [text]
  | fuel + 1, text =>
    match firstOccur sep text with
    | none => [text]
    | some i => text.take i :: pySplitAux sep fuel (text.drop (i + sep.length))

/-- Model of Python str.split(sep) for a non-empty separator: splits on every
leftmost non-overlapping occurrence. -/
def pySplit (sep text : List Char) : List (List Char) :=
  pySplitAux sep (text.length + 1) text

/-- Model of Python line.split(sep, 1)[1]: everything after the first
occurrence of sep (the whole string when sep does not occur). -/
def splitOnceAfter (sep text : List Char) : List Char :=
  match firstOccur sep text with
  | some i => text.drop (i + sep.length)
  | none => text

/-- Model of Python str.split on a single character (used for newline splits). -/
def splitOn1 (c : Char) : List Char → List (List Char)
  | [] => [[]]
  | x :: xs =>
    if x = c then [] :: splitOn1 c xs
    else
      match splitOn1 c xs with
      | [] => [[x]]
      | l :: ls => (x :: l) :: ls

theorem containsB_iff_occurs (pat t : List Char) : containsB pat t = true ↔ pat <:+: t := by
  induction t with
  | nil =>
    simp [containsB, List.isEmpty_iff]
  | cons c t ih =>
    simp only [containsB, Bool.or_eq_true, List.isPrefixOf_iff_prefix, ih]
    constructor
    · rintro (h | h)
      · exact h.isInfix
      · exact h.trans (List.suffix_cons c t).isInfix
    · intro h
      rcases List.infix_cons_iff.mp h with h | h
      · exact Or.inl h
      · exact Or.inr h

theorem containsB_mono {p q : List Char} (hpq : p <:+: q) {t : List Char}
    (h : containsB q t = true) : containsB p t = true := by
  rw [containsB_iff_occurs] at h ⊢
  exact hpq.trans h

example : containsB "bc".data "abcd".data = true := by decide
example : containsB "bd".data "abcd".data = false := by decide
example : pyStrip "  1. foo \n".data = "1. foo".data := by decide
example : pySplit "aa".data "aaaa".data = [[], [], []] := by decide
example : splitOn1 '\n' "a\n\n".data = ["a".data, [], []] := by decide

/-! ### The validator output parser (server.py, validate_json lines 126 to 168) -/

/-- Validity determination, server.py lines 129 to 133 (Python boolean
precedence: A or (B and C) or D). -/
def is_valid (output : List Char) : Bool :=
  containsB "✅ VALID JSON".data output
  || (containsB "VALID JSON".data output && !containsB "INVALID JSON".data output)
  || containsB "JSON is well-formed and structurally valid".data output

/-- Error-list extraction, server.py lines 136 to 140.  The section is
output.split(sep1)[1].split(sep2)[0]; its stripped lines that start with a
Python digit become entries, with everything up to the first dot-space
removed when a dot-space occurs.  Python str.isdigit also accepts non-ASCII
digit characters; the ASCII case is what the markers and claims exercise. -/
def parseErrors (output : List Char) : List (List Char) :=
  if containsB "Errors Found:".data output then
    let sec1 := (pySplit "Errors Found:".data output).getD 1 []
    let sec := (pySplit "==========".data sec1).getD 0 []
    let errorLines :=
      ((splitOn1 '\n' sec).map pyStrip).filter (fun s => !s.isEmpty && (s.headD ' ').isDigit)
    errorLines.map (fun l => if containsB ". ".data l then splitOnceAfter ". ".data l else l)
  else []

/-- The message-scanning loop of server.py lines 146 to 151 and 157 to 162:
walk the lines; at each line containing the marker that has a following
line, overwrite the running message with the stripped following line and
stop once it is non-blank. -/
def scanMsg (marker cur : List Char) : List (List Char) → List Char
  | [] => cur
  | [_] => cur
  | l :: l2 :: rest =>
    if containsB marker l then
      if (pyStrip l2).isEmpty then scanMsg marker (pyStrip l2) (l2 :: rest)
      else pyStrip l2
    else scanMsg marker cur (l2 :: rest)

/-- Message extraction, server.py lines 142 to 162. -/
def extractMessage (output : List Char) : List Char :=
  if containsB "INVALID JSON".data output then
    scanMsg "INVALID JSON".data "Validation completed".data (splitOn1 '\n' output)
  else if containsB "VALID JSON".data output || containsB "JSON is well-formed".data output then
    if containsB "JSON is well-formed and structurally valid".data output then
      "JSON is well-formed and structurally valid".data
    else
      scanMsg "VALID JSON".data "Validation completed".data (splitOn1 '\n' output)
  else "Validation completed".data

example : is_valid "✅ VALID JSON".data = true := by decide
example : is_valid "INVALID JSON".data = false := by decide
example : is_valid "✅ VALID JSON\nINVALID JSON".data = true := by decide
example : parseErrors "Errors Found:\n1. foo\n2. bar\n==========".data
    = ["foo".data, "bar".data] := by decide
example : extractMessage "INVALID JSON\nExpected brace".data = "Expected brace".data := by
  decide
example : extractMessage "nothing here".data = "Validation completed".data := by decide
example : extractMessage "INVALID JSON\n\n".data = [] := by decide

/-! ### Spec-side characterizations of the parser -/

/-- Validity as the spec sentence words it: a recognized valid marker present
and no invalid marker present, or the dedicated well-formed phrase present. -/
def specValidOrig (output : List Char) : Prop :=
  ((containsB "✅ VALID JSON".data output = true ∨ containsB "VALID JSON".data output = true)
      ∧ containsB "INVALID JSON".data output = false)
  ∨ containsB "JSON is well-formed and structurally valid".data output = true

instance (output : List Char) : Decidable (specValidOrig output) := by
  unfold specValidOrig; infer_instance

/-- The consecutive line pairs whose first line contains the marker. -/
def markedPairs (marker : List Char) (lines : List (List Char)) :
    List (List Char × List Char) :=
  (lines.zip lines.tail).filter (fun p => containsB marker p.1)

/-- Declarative description of the message scan: the stripped successor of the
first marker line whose successor strips to something non-blank; blank when
marker lines with successors exist but all strip to blank; the fallback when
no marker line has a successor. -/
def specScan (marker dflt : List Char) (lines : List (List Char)) : List Char :=
  match (markedPairs marker lines).find? (fun p => !(pyStrip p.2).isEmpty) with
  | some p => pyStrip p.2
  | none => if (markedPairs marker lines).isEmpty then dflt else []

theorem scanMsg_eq_specScan (marker : List Char) (lines : List (List Char)) :
    ∀ cur, scanMsg marker cur lines = specScan marker cur lines := by
  induction lines with
  | nil => intro cur; simp [scanMsg, specScan, markedPairs]
  | cons l tail ih =>
    intro cur
    cases tail with
    | nil => simp [scanMsg, specScan, markedPairs]
    | cons l2 rest =>
      by_cases hm : containsB marker l = true
      · have hmp : markedPairs marker (l :: l2 :: rest)
            = (l, l2) :: markedPairs marker (l2 :: rest) := by
          simp [markedPairs, List.filter_cons, hm]
        by_cases hb : (pyStrip l2).isEmpty = true
        · have he : pyStrip l2 = [] := by simpa using hb
          have hq : (!(pyStrip l2).isEmpty) = false := by simp [hb]
          rw [show scanMsg marker cur (l :: l2 :: rest)
                = scanMsg marker (pyStrip l2) (l2 :: rest) from by simp [scanMsg, hm, hb],
            ih (pyStrip l2), he]
          unfold specScan
          rw [hmp]
          cases hf : (markedPairs marker (l2 :: rest)).find? (fun p => !(pyStrip p.2).isEmpty)
          · simp [List.find?_cons, hq, hf]
          · simp [List.find?_cons, hq, hf]
        · have hq : (!(pyStrip l2).isEmpty) = true := by simp [hb]
          rw [show scanMsg marker cur (l :: l2 :: rest) = pyStrip l2 from by
            simp [scanMsg, hm, hb]]
          unfold specScan
          rw [hmp]
          simp [List.find?_cons, hq]
      · have hm2 : containsB marker l = false := by simpa using hm
        have hmp : markedPairs marker (l :: l2 :: rest) = markedPairs marker (l2 :: rest) := by
          simp [markedPairs, List.filter_cons, hm2]
        rw [show scanMsg marker cur (l :: l2 :: rest) = scanMsg marker cur (l2 :: rest) from by
          simp [scanMsg, hm2], ih cur]
        unfold specScan
        rw [hmp]

/-- If the output does not contain the error-section header, parseErrors is
empty. -/
theorem parseErrors_eq_nil (output : List Char)
    (h : containsB "Errors Found:".data output = false) : parseErrors output = [] := by
  simp [parseErrors, h]

/-! ### The validation endpoint (server.py, validate_json lines 72 to 191)

The request body as deserialized by request.get_json is a Python value;
effects are made explicit: the fresh temporary file name, whether the write
to it succeeds, and the behaviour of the external process. -/

/-- A deserialized JSON value as Python sees it. -/
inductive PyVal where
  | none
  | bool (b : Bool)
  | int (n : Int)
  | str (s : List Char)
  | list (xs : List PyVal)
  | dict (kvs : List (List Char × PyVal))

/-- Python truthiness of a deserialized JSON value. -/
def PyVal.truthy : PyVal → Bool
  | .none => false
  | .bool b => b
  | .int n => n != 0
  | .str s => !s.isEmpty
  | .list xs => !xs.isEmpty
  | .dict kvs => !kvs.isEmpty

/-- Python membership test for the string json in a value; raises TypeError
(as a textual error) on non-container values. -/
def jsonMem : PyVal → Except (List Char) Bool
  | .dict kvs => .ok (kvs.any (fun kv => kv.1 == "json".data))
  | .list xs =>
    .ok (xs.any (fun v => match v with | .str s => s == "json".data | _ => false))
  | .str s => .ok (containsB "json".data s)
  | _ => .error "argument of type is not iterable".data

/-- The guard on server.py line 86: not data or json not in data, with the
short-circuit of the or.  Error means a raised TypeError. -/
def missingField (v : PyVal) : Except (List Char) Bool :=
  if v.truthy = false then .ok true
  else
    match jsonMem v with
    | .ok b => .ok (!b)
    | .error e => .error e

/-- The subscript on server.py line 93, data of json: a dict yields the value
stored under the key (a Python dict holds each key once, so the first match
is the binding); a list or a string raises TypeError because the index is a
string; other values are not subscriptable.  Errors are the raised
exception's text. -/
def getItemJson : PyVal → Except (List Char) PyVal
  | .dict kvs =>
    match kvs.find? (fun kv => kv.1 == "json".data) with
    | some kv => .ok kv.2
    | Option.none => .error "KeyError: json".data
  | .list _ => .error "list indices must be integers or slices, not str".data
  | .str _ => .error "string indices must be integers".data
  | _ => .error "object is not subscriptable".data

/-- Behaviour of the external validator process for one invocation. -/
inductive RunOutcome where
  | completes (duration : Nat) (stdout : List Char)
  | raises (msg : List Char)

/-- Exceptions the endpoint distinguishes. -/
inductive PyExn where
  | timeoutExpired
  | other (msg : List Char)

/-- subprocess.run with a wall-clock timeout: raises TimeoutExpired when the
process runs longer than the limit. -/
def subprocess_run (timeLimit : Nat) : RunOutcome → Except PyExn (List Char)
  | .completes d out => if timeLimit < d then .error .timeoutExpired else .ok out
  | .raises m => .error (.other m)

/-- The JSON body and status code the endpoint responds with. -/
structure Response where
  valid : Bool
  message : List Char
  errors : List (List Char)
  status : Nat

/-- Effect environment of one request: the fresh temp-file name chosen by
tempfile.NamedTemporaryFile, whether writing the candidate text succeeds
(with the error text when not), and the external process behaviour. -/
structure Env where
  tmpName : List Char
  writeOk : Bool
  writeErrMsg : List Char
  run : RunOutcome

/-- Result of one request: the response, the final set of files on disk, and
whether the external validator was invoked. -/
structure EndpointResult where
  resp : Response
  fs : List (List Char)
  invoked : Bool

/-- The validate_json endpoint, server.py lines 72 to 191.  fs is the set of
files on disk when the request arrives.  After the guard, data of json is
read (a TypeError there lands in the generic except with no file created
and no invocation); then the temp file is created with delete equal False;
the finally block removes it when it exists; a write failure inside the
with block escapes to the outer except before the inner try-finally is
entered.  The written candidate text only reaches the validator through
the process behaviour in env, so its value is not threaded further. -/
def validate_json (env : Env) (body : PyVal) (fs : List (List Char)) : EndpointResult :=
  match missingField body with
  | .error e =>
    { resp := { valid := false, message := "Server error".data, errors := [e], status := 500 },
      fs := fs, invoked := false }
  | .ok true =>
    { resp := { valid := false, message := "No JSON input provided".data,
                errors := ["Request must include \"json\" field".data], status := 400 },
      fs := fs, invoked := false }
  | .ok false =>
    match getItemJson body with
    | .error e =>
      { resp := { valid := false, message := "Server error".data, errors := [e], status := 500 },
        fs := fs, invoked := false }
    | .ok _ =>
      let fs1 := env.tmpName :: fs
      if env.writeOk then
        let fs2 := fs1.erase env.tmpName
        match subprocess_run 10 env.run with
        | .ok stdout =>
          { resp := { valid := is_valid stdout, message := extractMessage stdout,
                      errors := parseErrors stdout, status := 200 },
            fs := fs2, invoked := true }
        | .error .timeoutExpired =>
          { resp := { valid := false, message := "Validation timeout".data,
                      errors := ["Validation process took too long".data], status := 500 },
            fs := fs2, invoked := true }
        | .error (.other m) =>
          { resp := { valid := false, message := "Server error".data, errors := [m],
                      status := 500 },
            fs := fs2, invoked := true }
      else
        { resp := { valid := false, message := "Server error".data,
                    errors := [env.writeErrMsg], status := 500 },
          fs := fs1, invoked := false }

example :
    (validate_json ⟨"t".data, true, [], .completes 1 []⟩
        (.list [.str "json".data]) []).resp.status = 500
    ∧ (validate_json ⟨"t".data, true, [], .completes 1 []⟩
        (.list [.str "json".data]) []).resp.message = "Server error".data
    ∧ (validate_json ⟨"t".data, true, [], .completes 1 []⟩
        (.list [.str "json".data]) []).invoked = false
    ∧ (validate_json ⟨"t".data, true, [], .completes 1 []⟩
        (.list [.str "json".data]) []).fs = [] := by
  refine ⟨?_, ?_, ?_, ?_⟩ <;> decide

/-! ### The visitor counter (server.py lines 24 to 65)

The persisted file is modelled as Option (Option Nat): no file, a corrupt
or count-less file, or a file holding a count.  The lock is held separately
for the read and for the write, so one increment is two atomic steps with a
local variable in between, exactly as in visitor_counter lines 53 to 57. -/

/-- get_visitor_count_from_file, server.py lines 28 to 39: missing or corrupt
file reads as zero. -/
def get_visitor_count_from_file : Option (Option Nat) → Nat
  | Option.none => 0
  | some Option.none => 0
  | some (some n) => n

/-- One in-flight increment: pc 0 is before the locked read, pc 1 is before
the locked write (holding the value it read), pc 2 is done. -/
structure IncThread where
  pc : Nat
  localv : Nat
deriving DecidableEq

/-- One atomic (lock-protected) step of an increment, server.py lines 55
to 57: the read stores the current count locally; the write stores the
local value plus one. -/
def stepInc (store : Option (Option Nat)) (t : IncThread) : IncThread × Option (Option Nat) :=
  if t.pc = 0 then ({ pc := 1, localv := get_visitor_count_from_file store }, store)
  else if t.pc = 1 then ({ pc := 2, localv := t.localv }, some (some (t.localv + 1)))
  else (t, store)

/-- A pool of concurrent increment requests over the shared counter file. -/
structure CounterSys where
  threads : List IncThread
  store : Option (Option Nat)

/-- Run the pool under a schedule: each schedule entry performs the next
atomic step of the named thread. -/
def runSched : List Nat → CounterSys → CounterSys
  | [], s => s
  | i :: rest, s =>
    match s.threads.get? i with
    | Option.none => runSched rest s
    | some t =>
      let ts := stepInc s.store t
      runSched rest { threads := s.threads.set i ts.1, store := ts.2 }

example :
    get_visitor_count_from_file
      (runSched [0, 0, 1, 1]
        { threads := [⟨0, 0⟩, ⟨0, 0⟩], store := some (some 0) }).store = 2 := by decide

example :
    get_visitor_count_from_file
      (runSched [0, 1, 0, 1]
        { threads := [⟨0, 0⟩, ⟨0, 0⟩], store := some (some 0) }).store = 1 := by decide

/-! ### Claims -/

/-- C1, counterexample: an output holding both the emoji valid marker and the
invalid marker, without the well-formed phrase, is reported valid by the
code although the claim calls it invalid. -/
theorem C1_counterexample :
    is_valid "✅ VALID JSON\nINVALID JSON".data = true
    ∧ ¬ specValidOrig "✅ VALID JSON\nINVALID JSON".data := by
  constructor
  · decide
  · decide

/-- C1, amended: the valid flag is true iff the spec condition holds (a
recognized valid marker without the invalid marker, or the well-formed
phrase) or the emoji-prefixed valid marker is present, the latter counting
as valid regardless of any invalid marker, exactly like the well-formed
phrase. -/
theorem C1_valid_flag (out : List Char) :
    is_valid out = true
    ↔ (specValidOrig out ∨ containsB "✅ VALID JSON".data out = true) := by
  unfold is_valid specValidOrig
  cases hE : containsB "✅ VALID JSON".data out
  · cases hV : containsB "VALID JSON".data out <;>
      cases hI : containsB "INVALID JSON".data out <;>
        cases hW : containsB "JSON is well-formed and structurally valid".data out <;>
          simp [hE, hV, hI, hW]
  · simp [hE]

/-- C2, counterexample: a text that contains the literal chunk of the claim,
preceded by an earlier Errors Found: section, yields the entries of the
earlier section, not foo and bar. -/
theorem C2_counterexample :
    containsB "Errors Found:\n1. foo\n2. bar\n==========".data
      "Errors Found:\n3. baz\n==========\nErrors Found:\n1. foo\n2. bar\n==========".data
      = true
    ∧ parseErrors
        "Errors Found:\n3. baz\n==========\nErrors Found:\n1. foo\n2. bar\n==========".data
      ≠ ["foo".data, "bar".data] := by
  constructor
  · decide
  · decide

/-- C2, amended: the errors list is non-empty only when the text contains the
Errors Found: header; the parsed section is the one after the first
occurrence of the header, and for the text consisting of the claimed chunk
(equivalently, any text in which that chunk hosts the first header
occurrence) the list is exactly foo, bar. -/
theorem C2_errors_section :
    (∀ out, parseErrors out ≠ [] → containsB "Errors Found:".data out = true)
    ∧ parseErrors "Errors Found:\n1. foo\n2. bar\n==========".data
        = ["foo".data, "bar".data] := by
  constructor
  · intro out h
    cases hc : containsB "Errors Found:".data out
    · exact absurd (parseErrors_eq_nil out hc) h
    · rfl
  · decide

/-- C2, witness: the only-if direction applied to a concrete output with one
numbered error entry. -/
theorem C2_witness :
    containsB "Errors Found:".data "Errors Found:\n1. x\n==========".data = true :=
  C2_errors_section.1 "Errors Found:\n1. x\n==========".data (by decide)

/-- C3, counterexample: when the line after the invalid marker is blank and no
later marker line has a non-blank follower, the message is the blank
string, not the generic fallback the claim requires. -/
theorem C3_counterexample :
    extractMessage "INVALID JSON\n\n".data = []
    ∧ "Validation completed".data ≠ ([] : List Char) := by
  constructor
  · decide
  · decide

/-- C3, amended: with no marker present the message is the fallback; when the
invalid marker is present (taking precedence over valid markers) the
message is the stripped successor of the first invalid-marker line whose
successor is non-blank, blank if marker lines with successors exist but
all strip to blank, and the fallback if no marker line has a successor;
when only valid markers are present, the full well-formed phrase, if
present, becomes the message itself, else the same scan runs over the
valid-marker lines. -/
theorem C3_message (out : List Char) :
    (containsB "INVALID JSON".data out = false →
      containsB "VALID JSON".data out = false →
      containsB "JSON is well-formed".data out = false →
      extractMessage out = "Validation completed".data)
    ∧ (containsB "INVALID JSON".data out = true →
      extractMessage out
        = specScan "INVALID JSON".data "Validation completed".data (splitOn1 '\n' out))
    ∧ (containsB "INVALID JSON".data out = false →
      containsB "JSON is well-formed and structurally valid".data out = true →
      extractMessage out = "JSON is well-formed and structurally valid".data)
    ∧ (containsB "INVALID JSON".data out = false →
      containsB "JSON is well-formed and structurally valid".data out = false →
      (containsB "VALID JSON".data out || containsB "JSON is well-formed".data out) = true →
      extractMessage out
        = specScan "VALID JSON".data "Validation completed".data (splitOn1 '\n' out)) := by
  refine ⟨?_, ?_, ?_, ?_⟩
  · intro hI hV hS
    simp [extractMessage, hI, hV, hS]
  · intro hI
    simp [extractMessage, hI, scanMsg_eq_specScan]
  · intro hI hW
    have hS : containsB "JSON is well-formed".data out = true :=
      containsB_mono (by decide) hW
    simp [extractMessage, hI, hS, hW]
  · intro hI hW hG
    simp only [Bool.or_eq_true] at hG
    rcases hG with hG | hG <;> simp [extractMessage, hI, hW, hG, scanMsg_eq_specScan]

/-- C3, witness: the invalid-marker scan applied to a concrete two-line
output. -/
theorem C3_witness :
    extractMessage "INVALID JSON\nbad".data
      = specScan "INVALID JSON".data "Validation completed".data
          (splitOn1 '\n' "INVALID JSON\nbad".data) :=
  (C3_message "INVALID JSON\nbad".data).2.1 (by decide)

/-- C8, counterexample: an output with the emoji valid marker and an error
section has a non-empty errors list while valid is true. -/
theorem C8_counterexample :
    parseErrors "✅ VALID JSON\nErrors Found:\n1. foo\n==========".data ≠ []
    ∧ is_valid "✅ VALID JSON\nErrors Found:\n1. foo\n==========".data = true := by
  constructor
  · decide
  · decide

/-- C8, amended: a non-empty errors list only guarantees that the text
contains the Errors Found: header; it does not force valid to be false,
and there are outputs with non-empty errors and valid true. -/
theorem C8_invariant :
    (∀ out, parseErrors out ≠ [] → containsB "Errors Found:".data out = true)
    ∧ ∃ out, parseErrors out ≠ [] ∧ is_valid out = true := by
  constructor
  · intro out h
    cases hc : containsB "Errors Found:".data out
    · exact absurd (parseErrors_eq_nil out hc) h
    · rfl
  · exact ⟨"VALID JSON\nErrors Found:\n1. e\n==========".data, by decide, by decide⟩

/-- C8, witness: the only-if direction applied to a concrete output. -/
theorem C8_witness :
    containsB "Errors Found:".data "Errors Found:\n2. y\n==========".data = true :=
  C8_invariant.1 "Errors Found:\n2. y\n==========".data (by decide)

/-- C4: when the body carries the json field, the write succeeds and the
external process exceeds the 10-unit timeout, the endpoint answers 500
with the exact message Validation timeout and a false verdict, and the
freshly named temporary file is gone from disk afterwards. -/
theorem C4_timeout (env : Env) (body : PyVal) (fs : List (List Char)) (d : Nat)
    (so : List Char) (j : PyVal) (hmf : missingField body = .ok false)
    (hj : getItemJson body = .ok j) (hw : env.writeOk = true)
    (hr : env.run = .completes d so) (hd : 10 < d) (hfresh : env.tmpName ∉ fs) :
    (validate_json env body fs).resp.status = 500
    ∧ (validate_json env body fs).resp.message = "Validation timeout".data
    ∧ (validate_json env body fs).resp.valid = false
    ∧ env.tmpName ∉ (validate_json env body fs).fs := by
  unfold validate_json
  rw [hmf, hj, hr]
  simp [hw, subprocess_run, hd, List.erase_cons_head, hfresh]

/-- C4, witness: a concrete request whose validator runs for 11 units. -/
theorem C4_witness :
    (validate_json ⟨"tmp_a".data, true, [], .completes 11 []⟩
        (.dict [("json".data, .str [])]) []).resp.status = 500
    ∧ (validate_json ⟨"tmp_a".data, true, [], .completes 11 []⟩
        (.dict [("json".data, .str [])]) []).resp.message = "Validation timeout".data
    ∧ (validate_json ⟨"tmp_a".data, true, [], .completes 11 []⟩
        (.dict [("json".data, .str [])]) []).resp.valid = false
    ∧ "tmp_a".data ∉ (validate_json ⟨"tmp_a".data, true, [], .completes 11 []⟩
        (.dict [("json".data, .str [])]) []).fs :=
  C4_timeout ⟨"tmp_a".data, true, [], .completes 11 []⟩ (.dict [("json".data, .str [])])
    [] 11 [] (.str []) rfl rfl rfl rfl (by decide) (by simp)

/-- C5, counterexample: on a process-launch failure with text boom the
response message is the fixed string Server error, which does not carry
the failure text; the failure text sits in the errors list instead. -/
theorem C5_counterexample :
    (validate_json ⟨"tmp_b".data, true, [], .raises "boom".data⟩
        (.dict [("json".data, .str [])]) []).resp.message = "Server error".data
    ∧ containsB "boom".data "Server error".data = false
    ∧ (validate_json ⟨"tmp_b".data, true, [], .raises "boom".data⟩
        (.dict [("json".data, .str [])]) []).resp.errors = ["boom".data] := by
  refine ⟨?_, ?_, ?_⟩
  · decide
  · decide
  · decide

/-- C5, amended: on a non-timeout unexpected failure, either a raised launch
or I/O failure of the invocation, or a failure while writing the temp
file, the endpoint answers 500 with the fixed message Server error and the
failure description as the sole entry of the errors list. -/
theorem C5_failure (env : Env) (body : PyVal) (fs : List (List Char)) (j : PyVal)
    (hmf : missingField body = .ok false) (hj : getItemJson body = .ok j) :
    (∀ m, env.writeOk = true → env.run = .raises m →
      (validate_json env body fs).resp.status = 500
      ∧ (validate_json env body fs).resp.message = "Server error".data
      ∧ (validate_json env body fs).resp.errors = [m])
    ∧ (env.writeOk = false →
      (validate_json env body fs).resp.status = 500
      ∧ (validate_json env body fs).resp.message = "Server error".data
      ∧ (validate_json env body fs).resp.errors = [env.writeErrMsg]) := by
  constructor
  · intro m hw hr
    unfold validate_json
    rw [hmf, hj, hr]
    simp [hw, subprocess_run]
  · intro hw
    unfold validate_json
    rw [hmf, hj]
    simp [hw]

/-- C5, witness: the raised-failure conjunct at a concrete environment. -/
theorem C5_witness :
    (validate_json ⟨"tmp_d".data, true, [], .raises "io error".data⟩
        (.dict [("json".data, .str [])]) []).resp.status = 500
    ∧ (validate_json ⟨"tmp_d".data, true, [], .raises "io error".data⟩
        (.dict [("json".data, .str [])]) []).resp.message = "Server error".data
    ∧ (validate_json ⟨"tmp_d".data, true, [], .raises "io error".data⟩
        (.dict [("json".data, .str [])]) []).resp.errors = ["io error".data] :=
  (C5_failure ⟨"tmp_d".data, true, [], .raises "io error".data⟩
      (.dict [("json".data, .str [])]) [] (.str []) rfl rfl).1 "io error".data rfl rfl

/-- C6, counterexample: when writing the candidate text to the freshly
created temporary file fails, the endpoint still returns, but the file is
left on disk. -/
theorem C6_counterexample :
    (validate_json ⟨"tmp_c".data, false, "disk full".data, .completes 0 []⟩
        (.dict [("json".data, .str [])]) []).resp.status = 500
    ∧ "tmp_c".data ∈ (validate_json ⟨"tmp_c".data, false, "disk full".data, .completes 0 []⟩
        (.dict [("json".data, .str [])]) []).fs := by
  constructor
  · decide
  · decide

/-- C6, amended: once the candidate text has been written successfully, the
temporary file is deleted on every exit path, normal completion, timeout
and raised invocation failure alike; but when the write itself fails the
cleanup block is never entered and the file is leaked. -/
theorem C6_cleanup (env : Env) (body : PyVal) (fs : List (List Char)) (j : PyVal)
    (hmf : missingField body = .ok false) (hj : getItemJson body = .ok j)
    (hfresh : env.tmpName ∉ fs) :
    (env.writeOk = true → env.tmpName ∉ (validate_json env body fs).fs)
    ∧ (env.writeOk = false → env.tmpName ∈ (validate_json env body fs).fs) := by
  constructor
  · intro hw
    unfold validate_json
    rw [hmf, hj]
    cases env.run with
    | completes d so =>
      by_cases hd : 10 < d <;>
        simp [hw, subprocess_run, hd, List.erase_cons_head, hfresh]
    | raises m =>
      simp [hw, subprocess_run, List.erase_cons_head, hfresh]
  · intro hw
    unfold validate_json
    rw [hmf, hj]
    simp [hw]

/-- C6, witness: cleanup on a concrete normally completing request. -/
theorem C6_witness :
    "tmp_e".data ∉ (validate_json ⟨"tmp_e".data, true, [], .completes 1 "ok".data⟩
        (.dict [("json".data, .str [])]) []).fs :=
  (C6_cleanup ⟨"tmp_e".data, true, [], .completes 1 "ok".data⟩
      (.dict [("json".data, .str [])]) [] (.str []) rfl rfl (by simp)).1 rfl

/-- C7: a body that is a dict without the json key gets a 400 with the fixed
single-entry error list, the validator is not invoked, and the disk is
untouched. -/
theorem C7_missing_field (env : Env) (fs : List (List Char))
    (kvs : List (List Char × PyVal)) (h : ∀ kv ∈ kvs, kv.1 ≠ "json".data) :
    (validate_json env (.dict kvs) fs).resp.status = 400
    ∧ (validate_json env (.dict kvs) fs).resp.errors
        = ["Request must include \"json\" field".data]
    ∧ (validate_json env (.dict kvs) fs).resp.errors.length = 1
    ∧ (validate_json env (.dict kvs) fs).invoked = false
    ∧ (validate_json env (.dict kvs) fs).fs = fs := by
  have hmf : missingField (.dict kvs) = .ok true := by
    cases kvs with
    | nil => rfl
    | cons kv rest =>
      have hany : ((kv :: rest).any fun p => p.1 == "json".data) = false := by
        simp only [List.any_eq_false, beq_iff_eq]
        intro a ha
        exact h a ha
      simp [missingField, PyVal.truthy, jsonMem, hany]
  unfold validate_json
  rw [hmf]
  exact ⟨rfl, rfl, rfl, rfl, rfl⟩

/-- C7, witness: a concrete dict body without the json key. -/
theorem C7_witness :
    (validate_json ⟨"tmp_f".data, true, [], .completes 1 []⟩
        (.dict [("data".data, .str [])]) []).resp.status = 400
    ∧ (validate_json ⟨"tmp_f".data, true, [], .completes 1 []⟩
        (.dict [("data".data, .str [])]) []).resp.errors
        = ["Request must include \"json\" field".data]
    ∧ (validate_json ⟨"tmp_f".data, true, [], .completes 1 []⟩
        (.dict [("data".data, .str [])]) []).resp.errors.length = 1
    ∧ (validate_json ⟨"tmp_f".data, true, [], .completes 1 []⟩
        (.dict [("data".data, .str [])]) []).invoked = false
    ∧ (validate_json ⟨"tmp_f".data, true, [], .completes 1 []⟩
        (.dict [("data".data, .str [])]) []).fs = [] :=
  C7_missing_field ⟨"tmp_f".data, true, [], .completes 1 []⟩ []
    [("data".data, .str [])] (by decide)

/-- C9: two concurrent increments, both completing, can interleave as read,
read, write, write; starting from a stored count of 0 the final stored
count is 1, not 2, so an update is lost although each individual read and
write holds the lock. -/
theorem C9_lost_update :
    get_visitor_count_from_file
      (runSched [0, 1, 0, 1]
        { threads := [⟨0, 0⟩, ⟨0, 0⟩], store := some (some 0) }).store = 1
    ∧ (runSched [0, 1, 0, 1]
        { threads := [⟨0, 0⟩, ⟨0, 0⟩], store := some (some 0) }).threads
        = [⟨2, 0⟩, ⟨2, 0⟩]
    ∧ get_visitor_count_from_file
        (runSched [0, 0, 1, 1]
          { threads := [⟨0, 0⟩, ⟨0, 0⟩], store := some (some 0) }).store = 2 := by
  refine ⟨?_, ?_, ?_⟩
  · decide
  · decide
  · decide

/-- C10: any falsy request body is answered exactly like the empty dict,
which lacks the json key: a 400 missing-field response, with no attempt to
read the field and no invocation of the validator. -/
theorem C10_falsy_body (env : Env) (fs : List (List Char)) (v : PyVal)
    (h : v.truthy = false) :
    (validate_json env v fs).resp.status = 400
    ∧ (validate_json env v fs).resp = (validate_json env (.dict []) fs).resp
    ∧ (validate_json env v fs).invoked = false
    ∧ (validate_json env v fs).fs = fs := by
  have hmf : missingField v = .ok true := by simp [missingField, h]
  have hmf0 : missingField (.dict []) = .ok true := rfl
  unfold validate_json
  rw [hmf, hmf0]
  exact ⟨rfl, rfl, rfl, rfl⟩

/-- C10, witness: the integer zero body. -/
theorem C10_witness :
    (validate_json ⟨"tmp_g".data, true, [], .completes 1 []⟩ (.int 0) []).resp.status = 400
    ∧ (validate_json ⟨"tmp_g".data, true, [], .completes 1 []⟩ (.int 0) []).resp
        = (validate_json ⟨"tmp_g".data, true, [], .completes 1 []⟩ (.dict []) []).resp
    ∧ (validate_json ⟨"tmp_g".data, true, [], .completes 1 []⟩ (.int 0) []).invoked = false
    ∧ (validate_json ⟨"tmp_g".data, true, [], .completes 1 []⟩ (.int 0) []).fs = [] :=
  C10_falsy_body ⟨"tmp_g".data, true, [], .completes 1 []⟩ [] (.int 0) rfl

end JSONValidator
